import Mathlib

/-!
Verification of the Takealot repricing engine (src/app.py): a shallow
embedding of the pricing decision `calculate_optimal_price`, the product
threshold lookup `get_product_thresholds`, the layered competitor price
resolver `get_competitor_price` (with the stored-price freshness check of
`PriceMonitor.get_competitor_price`), and the reporting helper
`describe_business_rule`, together with theorems settling the spec claims.

Python prices are floats; we model them as rationals `ℚ` and Python's
`int(...)` truncation toward zero as `pyTrunc`.  The dynamic type of the
competitor signal (`None` | the string `"we_own_buybox"` | a number) is the
tagged union `Signal`.
-/

namespace Repricing

/-- Python `int(q)` on a numeric value: truncation toward zero.
For a rational `num/den` in lowest terms this is the T-division of the
numerator by the denominator. -/
def pyTrunc (q : ℚ) : ℤ :=
  Int.tdiv q.num (q.den : ℤ)

/-- The competitor-signal value passed to `calculate_optimal_price`:
Python `None`, the sentinel string `"we_own_buybox"`, or a number. -/
inductive Signal where
  | absent : Signal
  | ownsBuybox : Signal
  | price : ℚ → Signal
deriving DecidableEq

/-- Names for the distinct return sites of `calculate_optimal_price`
(src/app.py lines 557-590), matching the spec's `rule_applied` labels and
the code's per-branch log messages. -/
inductive Rule where
  | OWN_BUYBOX
  | NO_SIGNAL_REVERT
  | REVERT_TO_MAX
  | CLAMPED_REVERT
  | UNDERCUT
deriving DecidableEq

/-- `TakealotRepricingEngine.calculate_optimal_price`, src/app.py lines
548-590: the decision body after the `get_product_thresholds` lookup.
All inputs are converted with `int(...)` first (lines 550-552, 563); a
competitor value that is falsy (Python `None` or the number `0`) is mapped
to `None` at line 563, and line 565 (`if not competitor_price or
competitor_price <= 0`) sends both absent and non-positive signals to the
`max_price` return. -/
def calculate_optimal_price (my_price : ℚ) (competitor_price : Signal)
    (min_price max_price : ℚ) : ℤ × Rule :=
  let my := pyTrunc my_price
  let mn := pyTrunc min_price
  let mx := pyTrunc max_price
  match competitor_price with
  | Signal.ownsBuybox => (my, Rule.OWN_BUYBOX)
  | Signal.absent => (mx, Rule.NO_SIGNAL_REVERT)
  | Signal.price c =>
    -- line 563: `int(competitor_price) if competitor_price ... else None`
    let copt : Option ℤ := if c ≠ 0 then some (pyTrunc c) else none
    match copt with
    | none => (mx, Rule.NO_SIGNAL_REVERT)
    | some ci =>
      if ci ≤ 0 then (mx, Rule.NO_SIGNAL_REVERT)
      else if ci < mn then (mx, Rule.REVERT_TO_MAX)
      else
        let new_price := ci - 1
        if new_price < mn then (mx, Rule.CLAMPED_REVERT)
        else if new_price > mx then (mx, Rule.CLAMPED_REVERT)
        else (new_price, Rule.UNDERCUT)

/-- `pyTrunc` of an integer is that integer. -/
theorem pyTrunc_intCast (n : ℤ) : pyTrunc (n : ℚ) = n := by
  simp [pyTrunc, Rat.intCast_num, Rat.den_intCast, Int.tdiv_one]

/-- A rational with positive truncation is nonzero (Python truthiness). -/
theorem ne_zero_of_pyTrunc_pos {c : ℚ} (h : 0 < pyTrunc c) : c ≠ 0 := by
  intro hc
  subst hc
  simp [pyTrunc] at h

/-- C1: for every competitor signal that is a positive number with
`min_price ≤ competitor` after truncation to integers, the decision
returns `(competitor - 1, UNDERCUT)` when `min_price ≤ competitor - 1 ≤
max_price` and `(max_price, CLAMPED_REVERT)` otherwise; the claim's
concrete scenarios `decide(700, 650, 515, 714) = (649, UNDERCUT)` and
`decide(700, 516, 515, 714) = (515, UNDERCUT)` are instances. -/
theorem C1_undercut_or_clamp (my_price c min_price max_price : ℚ)
    (hpos : 0 < pyTrunc c) (hmin : pyTrunc min_price ≤ pyTrunc c) :
    calculate_optimal_price my_price (Signal.price c) min_price max_price =
      if pyTrunc min_price ≤ pyTrunc c - 1 ∧ pyTrunc c - 1 ≤ pyTrunc max_price
      then (pyTrunc c - 1, Rule.UNDERCUT)
      else (pyTrunc max_price, Rule.CLAMPED_REVERT) := by
  have hc : c ≠ 0 := ne_zero_of_pyTrunc_pos hpos
  simp only [calculate_optimal_price, if_pos hc, ne_eq]
  split_ifs <;> first
    | rfl
    | omega

/-- Witness for C1 at the claim's concrete scenarios. -/
theorem C1_witness :
    calculate_optimal_price 700 (Signal.price 650) 515 714 =
        (649, Rule.UNDERCUT) ∧
      calculate_optimal_price 700 (Signal.price 516) 515 714 =
        (515, Rule.UNDERCUT) := by
  constructor
  · have h := C1_undercut_or_clamp 700 650 515 714 (by decide) (by decide)
    rw [h]
    decide
  · have h := C1_undercut_or_clamp 700 516 515 714 (by decide) (by decide)
    rw [h]
    decide

/-- C2: for every competitor signal that is a positive number strictly
below the product's `min_price` after truncation to integers, the decision
returns `(max_price, REVERT_TO_MAX)`, for any `my_price` (line 572; a
signal that is not a positive number is instead handled by the earlier
`NO_SIGNAL_REVERT` return, see C4). -/
theorem C2_revert_to_max (my_price c min_price max_price : ℚ)
    (hpos : 0 < pyTrunc c) (hlt : pyTrunc c < pyTrunc min_price) :
    calculate_optimal_price my_price (Signal.price c) min_price max_price =
      (pyTrunc max_price, Rule.REVERT_TO_MAX) := by
  have hc : c ≠ 0 := ne_zero_of_pyTrunc_pos hpos
  simp only [calculate_optimal_price, if_pos hc, ne_eq]
  split_ifs <;> first
    | rfl
    | omega

/-- Witness for C2 at the claim's concrete scenario
`decide(my_price=700, competitor=500, min=515, max=714) = (714, REVERT_TO_MAX)`. -/
theorem C2_witness :
    calculate_optimal_price 700 (Signal.price 500) 515 714 =
      (714, Rule.REVERT_TO_MAX) := by
  have h := C2_revert_to_max 700 500 515 714 (by decide) (by decide)
  rw [h]
  decide

/-- C3: for every `my_price` and every pair of bounds, the `OwnsBuybox`
sentinel makes the decision return `(my_price, OWN_BUYBOX)` unchanged
(line 558-560), independent of the bounds. -/
theorem C3_own_buybox (my_price min_price max_price : ℚ) :
    calculate_optimal_price my_price Signal.ownsBuybox min_price max_price =
      (pyTrunc my_price, Rule.OWN_BUYBOX) := rfl

/-- C4: for every `my_price` and every pair of bounds, a competitor signal
that is absent or not a positive number (Python `None`, `0`, or a value
truncating to a non-positive integer) makes the decision return
`(max_price, NO_SIGNAL_REVERT)` (lines 563-567). -/
theorem C4_no_signal_revert (my_price min_price max_price : ℚ)
    (sig : Signal)
    (h : sig = Signal.absent ∨ ∃ c, sig = Signal.price c ∧ pyTrunc c ≤ 0) :
    calculate_optimal_price my_price sig min_price max_price =
      (pyTrunc max_price, Rule.NO_SIGNAL_REVERT) := by
  rcases h with h | ⟨c, rfl, hc⟩
  · subst h
    rfl
  · by_cases hz : c = 0
    · subst hz
      rfl
    · simp only [calculate_optimal_price, if_pos hz, ne_eq]
      rw [if_pos hc]

/-- Witness for C4 at the claim's concrete scenario
`decide(my_price=700, competitor=absent, min=515, max=714) = (714, NO_SIGNAL_REVERT)`,
plus the `0` and negative examples. -/
theorem C4_witness :
    calculate_optimal_price 700 Signal.absent 515 714 =
        (714, Rule.NO_SIGNAL_REVERT) ∧
      calculate_optimal_price 700 (Signal.price 0) 515 714 =
        (714, Rule.NO_SIGNAL_REVERT) ∧
      calculate_optimal_price 700 (Signal.price (-3)) 515 714 =
        (714, Rule.NO_SIGNAL_REVERT) := by
  refine ⟨C4_no_signal_revert 700 515 714 Signal.absent (Or.inl rfl), ?_, ?_⟩
  · exact C4_no_signal_revert 700 515 714 (Signal.price 0)
      (Or.inr ⟨0, rfl, by decide⟩)
  · exact C4_no_signal_revert 700 515 714 (Signal.price (-3))
      (Or.inr ⟨-3, rfl, by decide⟩)

/-- C9: bounds invariant. For every competitor signal other than the
`OwnsBuybox` sentinel and every bound pair with `int(min_price) ≤
int(max_price)`, the price returned by `calculate_optimal_price` lies in
the inclusive interval `[int(min_price), int(max_price)]`, and it is
always either `int(max_price)` or `competitor - 1` with `competitor - 1`
within the bounds. -/
theorem C9_bounds_invariant (my_price min_price max_price : ℚ)
    (sig : Signal) (hsig : sig ≠ Signal.ownsBuybox)
    (hb : pyTrunc min_price ≤ pyTrunc max_price) :
    pyTrunc min_price ≤
        (calculate_optimal_price my_price sig min_price max_price).1 ∧
      (calculate_optimal_price my_price sig min_price max_price).1 ≤
        pyTrunc max_price ∧
      ((calculate_optimal_price my_price sig min_price max_price).1 =
          pyTrunc max_price ∨
        ∃ c, sig = Signal.price c ∧
          (calculate_optimal_price my_price sig min_price max_price).1 =
            pyTrunc c - 1 ∧
          pyTrunc min_price ≤ pyTrunc c - 1 ∧
          pyTrunc c - 1 ≤ pyTrunc max_price) := by
  rcases sig with _ | _ | c
  · exact ⟨hb, le_refl _, Or.inl rfl⟩
  · exact absurd rfl hsig
  · by_cases hz : c = 0
    · subst hz
      exact ⟨hb, le_refl _, Or.inl rfl⟩
    · simp only [calculate_optimal_price, if_pos hz, ne_eq]
      split_ifs with h1 h2 h3 h4 <;>
        refine ⟨by omega, by omega, ?_⟩
      · exact Or.inl rfl
      · exact Or.inl rfl
      · exact Or.inl rfl
      · exact Or.inl rfl
      · exact Or.inr ⟨c, rfl, rfl, by omega, by omega⟩

/-- Witness for C9 at a concrete input: competitor 650 with bounds
`[515, 714]` gives the in-bounds price 649. -/
theorem C9_witness :
    (515 : ℤ) ≤ (calculate_optimal_price 700 (Signal.price 650) 515 714).1 ∧
      (calculate_optimal_price 700 (Signal.price 650) 515 714).1 ≤ 714 := by
  have h := C9_bounds_invariant 700 515 714 (Signal.price 650)
    (by decide) (by decide)
  have h1 : pyTrunc (515 : ℚ) = 515 := by decide
  have h2 : pyTrunc (714 : ℚ) = 714 := by decide
  exact ⟨h1 ▸ h.1, h2 ▸ h.2.1⟩

/-- Truncation of a signal value: Python `int(...)` applied to a numeric
competitor signal, leaving the `None` and sentinel cases unchanged. -/
def truncSignal : Signal → Signal
  | Signal.price c => Signal.price ((pyTrunc c : ℤ) : ℚ)
  | s => s

/-- C8: the decision depends on its price inputs only through their
truncation to integers — replacing `my_price`, the numeric competitor
signal, `min_price` and `max_price` by their `int(...)` truncations leaves
the result unchanged, so every comparison and the undercut subtraction
happen post-truncation; in particular `my_price = 500.9` is treated
exactly as `500`. -/
theorem C8_truncation (my_price min_price max_price : ℚ) (sig : Signal) :
    calculate_optimal_price my_price sig min_price max_price =
        calculate_optimal_price ((pyTrunc my_price : ℤ) : ℚ) (truncSignal sig)
          ((pyTrunc min_price : ℤ) : ℚ) ((pyTrunc max_price : ℤ) : ℚ) ∧
      calculate_optimal_price (500.9 : ℚ) sig min_price max_price =
        calculate_optimal_price (500 : ℚ) sig min_price max_price := by
  have key : ∀ (my mn mx : ℚ) (s : Signal),
      calculate_optimal_price my s mn mx =
        calculate_optimal_price ((pyTrunc my : ℤ) : ℚ) (truncSignal s)
          ((pyTrunc mn : ℤ) : ℚ) ((pyTrunc mx : ℤ) : ℚ) := by
    intro my mn mx s
    rcases s with _ | _ | c
    · simp [calculate_optimal_price, truncSignal, pyTrunc_intCast]
    · simp [calculate_optimal_price, truncSignal, pyTrunc_intCast]
    · by_cases hz : c = 0
      · subst hz
        simp [calculate_optimal_price, truncSignal, pyTrunc_intCast, pyTrunc]
      · by_cases ht : pyTrunc c = 0
        · simp [calculate_optimal_price, truncSignal, pyTrunc_intCast, hz, ht]
        · have hc : ((pyTrunc c : ℤ) : ℚ) ≠ 0 := by
            exact_mod_cast ht
          simp [calculate_optimal_price, truncSignal, pyTrunc_intCast, hz, hc]
  refine ⟨key my_price min_price max_price sig, ?_⟩
  have h59 : pyTrunc (500.9 : ℚ) = 500 := by
    norm_num [pyTrunc]
    decide
  have h50 : pyTrunc (500 : ℚ) = 500 := by decide
  calc calculate_optimal_price (500.9 : ℚ) sig min_price max_price
      = calculate_optimal_price ((pyTrunc (500.9 : ℚ) : ℤ) : ℚ)
          (truncSignal sig) ((pyTrunc min_price : ℤ) : ℚ)
          ((pyTrunc max_price : ℤ) : ℚ) := key _ _ _ _
    _ = calculate_optimal_price ((pyTrunc (500 : ℚ) : ℤ) : ℚ)
          (truncSignal sig) ((pyTrunc min_price : ℤ) : ℚ)
          ((pyTrunc max_price : ℤ) : ℚ) := by rw [h59, h50]
    _ = calculate_optimal_price (500 : ℚ) sig min_price max_price :=
          (key _ _ _ _).symm

/-- `TakealotRepricingEngine.get_product_thresholds`, src/app.py lines
376-387: the product configuration is a map from offer id to
`(min_price, max_price)` (modelled as an association list); a missing
entry yields the hard-coded fallback `(500, 700)` (line 387). -/
def get_product_thresholds (product_config : List (String × ℚ × ℚ))
    (offer_id : String) : ℚ × ℚ :=
  match product_config.find? (fun entry => entry.1 == offer_id) with
  | some entry => (entry.2.1, entry.2.2)
  | none => (500, 700)

/-- `TakealotRepricingEngine.calculate_optimal_price`, src/app.py lines
544-590, as called: the per-product threshold lookup (line 547) followed
by the decision body. -/
def engine_calculate_optimal_price (product_config : List (String × ℚ × ℚ))
    (my_price : ℚ) (competitor_price : Signal) (offer_id : String) :
    ℤ × Rule :=
  let t := get_product_thresholds product_config offer_id
  calculate_optimal_price my_price competitor_price t.1 t.2

/-- C6 fails on the code: for a product identifier with no loaded policy,
`get_product_thresholds` does not skip the product but substitutes the
invented default thresholds `(500, 700)` (line 387), and
`calculate_optimal_price` then produces a pricing decision based on those
defaults — here the undercut price 649 for an unconfigured product. -/
theorem C6_defaults_not_skip :
    get_product_thresholds [] "2509" = (500, 700) ∧
      engine_calculate_optimal_price [] 700 (Signal.price 650) "2509" =
        (649, Rule.UNDERCUT) := by
  exact ⟨rfl, by decide⟩

/-- The three label families returned by `describe_business_rule`
(src/app.py lines 1570-1578). -/
inductive ReportedRule where
  | WE_OWN_BUYBOX
  | REVERT_TO_MAX
  | R1_BELOW_COMPETITOR
deriving DecidableEq

/-- `describe_business_rule`, src/app.py lines 1561-1578: classifies the
decision using the fixed fallback `MIN_PRICE = 500` (line 1564; the
`MAX_PRICE = 700` of line 1565 is unused), not the product's own policy.
A falsy competitor value (`None` or `0`) is mapped to `0` at line 1573.
`my_price` and `optimal_price` are truncated (lines 1567-1568) but only
interpolated into the returned message, never used to pick the label. -/
def describe_business_rule (my_price : ℚ) (competitor_price : Signal)
    (optimal_price : ℚ) : ReportedRule :=
  let MIN_PRICE : ℤ := 500
  -- lines 1567-1568: truncations used only inside the returned strings
  let _my := pyTrunc my_price
  let _optimal := pyTrunc optimal_price
  if competitor_price = Signal.ownsBuybox then ReportedRule.WE_OWN_BUYBOX
  else
    let c : ℤ :=
      match competitor_price with
      | Signal.price p => if p ≠ 0 then pyTrunc p else 0
      | _ => 0
    if c < MIN_PRICE then ReportedRule.REVERT_TO_MAX
    else ReportedRule.R1_BELOW_COMPETITOR

/-- C10: `describe_business_rule` classifies with the fixed thresholds
500/700 instead of the product's policy, so for a product with
`min_price = 515` and competitor 505 the decision actually takes the
`REVERT_TO_MAX` branch (505 < 515) while the reported label is
`R1_BELOW_COMPETITOR` (the undercut label, since 505 ≥ 500) — a different
rule than the branch taken. -/
theorem C10_report_mismatch :
    engine_calculate_optimal_price [("X", 515, 714)] 700 (Signal.price 505)
        "X" = (714, Rule.REVERT_TO_MAX) ∧
      describe_business_rule 700 (Signal.price 505) 714 =
        ReportedRule.R1_BELOW_COMPETITOR ∧
      ReportedRule.R1_BELOW_COMPETITOR ≠ ReportedRule.REVERT_TO_MAX := by
  refine ⟨by decide, by decide, by decide⟩

/-- Outcome of the live fetch `get_real_competitor_price` (src/app.py
lines 438-542): a numeric price, the `"we_own_buybox"` sentinel string,
or Python `None` on any fetch/parse failure. -/
inductive FetchResult where
  | price : ℚ → FetchResult
  | ownsBuybox : FetchResult
  | failed : FetchResult
deriving DecidableEq

/-- Value returned by the engine resolver `get_competitor_price` (lines
401-436): Python returns a number, the sentinel string, or `None`
(absent). -/
inductive ResolvedSignal where
  | absent : ResolvedSignal
  | ownsBuybox : ResolvedSignal
  | price : ℚ → ResolvedSignal
deriving DecidableEq

/-- `PRICE_FRESHNESS_SECONDS`, src/app.py line 30. -/
def PRICE_FRESHNESS_SECONDS : ℚ := 3600

namespace PriceMonitor

/-- `PriceMonitor.get_competitor_price`, src/app.py lines 76-107: the
stored record is `(competitor_price, last_updated)` with timestamps in
seconds; the price is returned exactly when
`now - last_updated < PRICE_FRESHNESS_SECONDS` (line 95), else `None`. -/
def get_competitor_price (record : Option (ℚ × ℚ)) (now : ℚ) : Option ℚ :=
  match record with
  | some r =>
    if now - r.2 < PRICE_FRESHNESS_SECONDS then some r.1 else none
  | none => none

end PriceMonitor

/-- `TakealotRepricingEngine._simulate_scraping`, src/app.py lines
674-683: a price fabricated from the MD5 hash of the offer id
(`hash_int` is the integer value of the first 8 hex digits of the
digest). -/
def _simulate_scraping (hash_int : ℕ) : ℚ :=
  ((450 + hash_int % 200 : ℕ) : ℚ)

/-- `TakealotRepricingEngine._get_fallback_price`, src/app.py lines
685-692: a second hash-derived fabricated price. -/
def _get_fallback_price (hash_int : ℕ) : ℚ :=
  ((500 + hash_int % 100 : ℕ) : ℚ)

/-- `TakealotRepricingEngine.get_competitor_price`, src/app.py lines
401-436: tier 1 the stored/monitored record, tier 2 the in-memory cache,
tier 3 the live fetch, tier 4 the simulated fallback.  At line 421
(`if real_price and real_price > 0`) a sentinel result makes Python 3
compare the string `"we_own_buybox"` with `0`, which raises `TypeError`;
the enclosing `try`/`except` (lines 434-436) then returns
`_get_fallback_price`, so the `elif real_price == "we_own_buybox"` branch
at line 424 is unreachable. -/
def get_competitor_price (stored_record : Option (ℚ × ℚ)) (now : ℚ)
    (cached_price : Option ℚ) (real_price : FetchResult) (hash_int : ℕ) :
    ResolvedSignal :=
  match PriceMonitor.get_competitor_price stored_record now with
  | some p => ResolvedSignal.price p
  | none =>
  match cached_price with
  | some p => ResolvedSignal.price p
  | none =>
  match real_price with
  | FetchResult.price p =>
    if p ≠ 0 ∧ 0 < p then ResolvedSignal.price p
    else ResolvedSignal.price (_simulate_scraping hash_int)
  | FetchResult.ownsBuybox =>
    ResolvedSignal.price (_get_fallback_price hash_int)
  | FetchResult.failed =>
    ResolvedSignal.price (_simulate_scraping hash_int)

/-- `TakealotRepricingEngine.get_competitor_price_instant`, src/app.py
lines 389-399: the stored/monitored price when fresh, else the full
resolver, tagged with the source used. -/
def get_competitor_price_instant (stored_record : Option (ℚ × ℚ))
    (now : ℚ) (cached_price : Option ℚ) (real_price : FetchResult)
    (hash_int : ℕ) : ResolvedSignal × String :=
  match PriceMonitor.get_competitor_price stored_record now with
  | some p => (ResolvedSignal.price p, "proactive_monitoring")
  | none =>
    (get_competitor_price stored_record now cached_price real_price
      hash_int, "real_time_scraping")

/-- C5 fails on the code: the resolver never returns an absent signal at
all — every path yields a numeric price — and when the stored record and
cache are empty and the live fetch fails it returns the fabricated
hash-derived price `450 + hash_int % 200` from `_simulate_scraping`;
such a synthetic price (here `hash_int = 150`, price R600) is then
consumed by `calculate_optimal_price` as a real competitor signal,
producing the undercut decision 599. -/
theorem C5_fabricated_fallback (stored_record : Option (ℚ × ℚ)) (now : ℚ)
    (cached_price : Option ℚ) (real_price : FetchResult) (hash_int : ℕ) :
    (∃ p : ℚ, get_competitor_price stored_record now cached_price
        real_price hash_int = ResolvedSignal.price p) ∧
      get_competitor_price none now none FetchResult.failed hash_int =
        ResolvedSignal.price ((450 + hash_int % 200 : ℕ) : ℚ) ∧
      get_competitor_price_instant none 0 none FetchResult.failed 150 =
        (ResolvedSignal.price 600, "real_time_scraping") ∧
      calculate_optimal_price 700 (Signal.price 600) 515 714 =
        (599, Rule.UNDERCUT) := by
  refine ⟨?_, rfl, by decide, by decide⟩
  unfold get_competitor_price PriceMonitor.get_competitor_price
  rcases stored_record with _ | r
  · rcases cached_price with _ | p
    · rcases real_price with p | _ | _
      · by_cases hp : p ≠ 0 ∧ 0 < p
        · exact ⟨p, by simp [hp]⟩
        · exact ⟨_simulate_scraping hash_int, by simp [hp]⟩
      · exact ⟨_get_fallback_price hash_int, rfl⟩
      · exact ⟨_simulate_scraping hash_int, rfl⟩
    · exact ⟨p, rfl⟩
  · by_cases hf : now - r.2 < PRICE_FRESHNESS_SECONDS
    · exact ⟨r.1, by simp [hf]⟩
    · rcases cached_price with _ | p
      · rcases real_price with p | _ | _
        · by_cases hp : p ≠ 0 ∧ 0 < p
          · exact ⟨p, by simp [hf, hp]⟩
          · exact ⟨_simulate_scraping hash_int, by simp [hf, hp]⟩
        · exact ⟨_get_fallback_price hash_int, by simp [hf]⟩
        · exact ⟨_simulate_scraping hash_int, by simp [hf]⟩
      · exact ⟨p, by simp [hf]⟩

/-- C7: the stored-price lookup returns the record's price exactly when
its age `now - observed_at` is strictly below the 3600-second freshness
window, and a stale record makes the resolver behave exactly as if no
record were stored, falling through to the cache/live-fetch tiers. -/
theorem C7_freshness (p observed_at now : ℚ) (cached_price : Option ℚ)
    (real_price : FetchResult) (hash_int : ℕ) :
    (PriceMonitor.get_competitor_price (some (p, observed_at)) now =
        some p ↔ now - observed_at < PRICE_FRESHNESS_SECONDS) ∧
      (PRICE_FRESHNESS_SECONDS ≤ now - observed_at →
        get_competitor_price (some (p, observed_at)) now cached_price
            real_price hash_int =
          get_competitor_price none now cached_price real_price
            hash_int) := by
  constructor
  · unfold PriceMonitor.get_competitor_price
    by_cases h : now - observed_at < PRICE_FRESHNESS_SECONDS
    · simp [h]
    · simp [h]
  · intro h
    have hs : ¬ (now - observed_at < PRICE_FRESHNESS_SECONDS) :=
      not_lt.mpr h
    unfold get_competitor_price PriceMonitor.get_competitor_price
    simp [hs]

/-- Witness for C7: a record aged 3599 seconds is used, and with a record
aged 3601 seconds the resolver behaves as with no stored record. -/
theorem C7_witness :
    PriceMonitor.get_competitor_price (some (600, 0)) 3599 = some 600 ∧
      get_competitor_price (some (600, 0)) 3601 none FetchResult.failed
          0 =
        get_competitor_price none 3601 none FetchResult.failed 0 := by
  constructor
  · exact (C7_freshness 600 0 3599 none FetchResult.failed 0).1.mpr
      (by norm_num [PRICE_FRESHNESS_SECONDS])
  · exact (C7_freshness 600 0 3601 none FetchResult.failed 0).2
      (by norm_num [PRICE_FRESHNESS_SECONDS])

end Repricing
